import Mathlib

/-!
# In-memory film storage (`internal/storage/memory.go`) and the list handler
(`cmd/server/main.go`)

The Go type `FilmStorage` is a mutex-guarded `map[string]*filmsapi.Film`.
The embedding below is sequential: every method body runs under `s.Mu`, so a
method is a function from the store before the call to the store after the
call together with the returned values.

* the map is a finite map from `String` keys to records (`AList`); it is the
  map `NewFilmStorage` makes, never the `nil` map, and no entry is `nil`
  (only `Create` adds entries);
* a record is held by value: each key owns its own heap cell, which is what
  `Create` allocates and what `Update` assigns to field by field;
* `uuid.New()` is an input of `Create` (the identifier it produced);
* `range s.Films` visits the entries in an order chosen by the runtime, so the
  visiting order is an input of `List`;
* Go `int` values are `Int`; the counters of `List` are bounded by the number
  of entries and never wrap.
-/

namespace FilmList

/-- A `uuid.UUID` value of `github.com/google/uuid`, represented by its
canonical textual form (the 36 character string that `String()` prints). -/
structure UUID where
  canonical : String
deriving DecidableEq, Repr

/-- The method `uuid.UUID.String`. -/
def UUID.String (u : UUID) : String := u.canonical

/-- A Go `float32`, represented by its IEEE-754 bit pattern. The storage layer
only copies ratings, it never computes with them. -/
structure Float32 where
  bits : Nat
deriving DecidableEq, Repr

/-- The constant `0` at type `float32` (positive zero, all bits clear). -/
def Float32.zero : Float32 := ⟨0⟩

/-- Modelled from the spec: the generated struct `filmsapi.Film` (package
`gen/filmsapi`), with the fields the storage layer reads and writes. The age
rating is a string-kinded enumeration type, kept as its underlying text. -/
structure Film where
  ID : UUID
  Title : String
  Year : Int
  Country : String
  Director : String
  AgeRating : String
  Duration : Int
  Rating : Float32
  Actors : List String
deriving DecidableEq, Repr

/-- Modelled from the spec: the generated struct `filmsapi.CreateFilmRequest`
(package `gen/filmsapi`); it has no rating and no actors. -/
structure CreateFilmRequest where
  Title : String
  Year : Int
  Country : String
  Director : String
  AgeRating : String
  Duration : Int
deriving DecidableEq, Repr

/-- Modelled from the spec: the generated struct `filmsapi.UpdateFilmRequest`
(package `gen/filmsapi`), carrying every mutable field. -/
structure UpdateFilmRequest where
  Title : String
  Year : Int
  Country : String
  Director : String
  Rating : Float32
  Duration : Int
  AgeRating : String
  Actors : List String
deriving DecidableEq, Repr

/-- The map type `map[string]*filmsapi.Film`. -/
abbrev FilmMap := AList (fun _ : String => Film)

/-- One entry of the map: a key and the record stored under it. -/
abbrev Entry := Sigma fun _ : String => Film

/-- A sequence of map entries, as visited by a `range` loop. -/
abbrev Order := List Entry

/-- A sequence of records, the Go slice type `[]filmsapi.Film`. -/
abbrev FilmSlice := List Film

/-- A sequence of single-field writes to a record. -/
abbrev Assignments := List (Film → Film)

/-- A sequence of `Create` calls: for each call its request and the identifier
`uuid.New()` produced in it. -/
abbrev CreateCalls := List (CreateFilmRequest × UUID)

/-- The struct `FilmStorage`; the lock `Mu` has no sequential content. -/
structure FilmStorage where
  Films : FilmMap

/-- `NewFilmStorage`: a store with an empty map. -/
def NewFilmStorage : FilmStorage := ⟨∅⟩

/-- `FilmStorage.Create`, with `id` the value returned by `uuid.New()`.
Returns the store after the call and the new record. -/
def FilmStorage.Create (s : FilmStorage) (film : CreateFilmRequest) (id : UUID) :
    FilmStorage × Film :=
  let newFilm : Film :=
    { ID := id
      Title := film.Title
      Year := film.Year
      Country := film.Country
      Director := film.Director
      AgeRating := film.AgeRating
      Duration := film.Duration
      Rating := Float32.zero
      Actors := [] }
  (⟨s.Films.insert id.String newFilm⟩, newFilm)

/-- `FilmStorage.GetByID`: the two results `film, exists` of the map read
(`film` is `nil` when the key is absent). -/
def FilmStorage.GetByID (s : FilmStorage) (id : String) : Option Film × Bool :=
  (s.Films.lookup id, (s.Films.lookup id).isSome)

/-- The loop of `FilmStorage.List` over the entries still to visit, with the
loop variables `films`, `count` and `skipped`. -/
def FilmStorage.ListLoop (limit offset : Int) :
    Order → FilmSlice → Int → Int → FilmSlice
  | [], films, _, _ => films
  | ⟨_, film⟩ :: rest, films, count, skipped =>
    if skipped < offset then
      ListLoop limit offset rest films count (skipped + 1)
    else if count ≥ limit then
      films
    else
      ListLoop limit offset rest (films ++ [film]) (count + 1) skipped

/-- `FilmStorage.List`, with `order` the sequence in which `range s.Films`
visits the entries of the map. -/
def FilmStorage.List (_s : FilmStorage) (order : Order) (limit offset : Int) : FilmSlice :=
  FilmStorage.ListLoop limit offset order [] 0 0

/-- The runtime visits every entry of the map exactly once, in some order:
`order` is a rearrangement of the entries of the store. -/
def FilmStorage.Enumerates (s : FilmStorage) (order : Order) : Prop :=
  order.Perm s.Films.entries

/-- The number of records in the store, `len(s.Films)`. -/
def FilmStorage.size (s : FilmStorage) : Nat := s.Films.entries.length

/-- The eight field assignments of `FilmStorage.Update`, in source order
(`film.Title = update.Title` first, `film.Duration = update.Duration` last).
Each one writes a single field of the record the map entry points to. -/
def FilmStorage.UpdateAssignments (update : UpdateFilmRequest) : Assignments :=
  [ fun film => { film with Title := update.Title },
    fun film => { film with Year := update.Year },
    fun film => { film with Country := update.Country },
    fun film => { film with Rating := update.Rating },
    fun film => { film with Actors := update.Actors },
    fun film => { film with Director := update.Director },
    fun film => { film with AgeRating := update.AgeRating },
    fun film => { film with Duration := update.Duration } ]

/-- The content of a record after the first `k` assignments of an update have
been carried out on it. -/
def FilmStorage.afterAssignments (film : Film) (update : UpdateFilmRequest) (k : Nat) : Film :=
  ((FilmStorage.UpdateAssignments update).take k).foldl (fun f assign => assign f) film

/-- `FilmStorage.Update`: when the key is absent the results are `nil, false`
and nothing is written; otherwise all assignments are carried out on the
stored record and the results are that record and `true`. -/
def FilmStorage.Update (s : FilmStorage) (id : String) (update : UpdateFilmRequest) :
    FilmStorage × (Option Film × Bool) :=
  match s.Films.lookup id with
  | none => (s, (none, false))
  | some film =>
    let film' := FilmStorage.afterAssignments film update
      (FilmStorage.UpdateAssignments update).length
    (⟨s.Films.insert id film'⟩, (some film', true))

/-- `FilmStorage.Delete`. -/
def FilmStorage.Delete (s : FilmStorage) (id : String) : FilmStorage × Bool :=
  if (s.Films.lookup id).isSome then
    (⟨s.Films.erase id⟩, true)
  else
    (s, false)

/-- A caller that obtained a record through `GetByID` holds the pointer stored
in the map, not a copy (`GetByID` returns `film` itself, while `List` copies
with `*film` under the lock). Reading through that pointer takes no lock, so it
can happen while `Update` of the same key is between two of its assignments.
This is what such a read yields when `k` assignments have been carried out. -/
def FilmStorage.readThroughReference (s : FilmStorage) (id : String)
    (update : UpdateFilmRequest) (k : Nat) : Option Film :=
  match (s.GetByID id).1 with
  | none => none
  | some film => some (FilmStorage.afterAssignments film update k)

/-- A sequence of `Create` calls, each with its request and the identifier the
generator produced for it; returns the final store and the records returned by
the calls, in call order. -/
def FilmStorage.CreateAll (s : FilmStorage) : CreateCalls → FilmStorage × FilmSlice
  | [] => (s, [])
  | (film, id) :: rest =>
    let r := s.Create film id
    let rs := CreateAll r.1 rest
    (rs.1, r.2 :: rs.2)

/-- A request used in the examples. -/
def matrixRequest : CreateFilmRequest :=
  { Title := "Matrix", Year := 1999, Country := "USA", Director := "Wachowski",
    AgeRating := "16+", Duration := 136 }

/-- A second request used in the examples. -/
def alienRequest : CreateFilmRequest :=
  { Title := "Alien", Year := 1979, Country := "UK", Director := "Scott",
    AgeRating := "18+", Duration := 117 }

/-- An update used in the examples. -/
def matrixUpdate : UpdateFilmRequest :=
  { Title := "The Matrix", Year := 2000, Country := "US", Director := "Wachowskis",
    Rating := ⟨1091043328⟩, Duration := 140, AgeRating := "18+", Actors := ["Reeves"] }

/-- An identifier used in the examples. -/
def idA : UUID := ⟨"6ba7b810-9dad-41d1-80b4-00c04fd430c8"⟩

/-- A second identifier used in the examples. -/
def idB : UUID := ⟨"6ba7b811-9dad-41d1-80b4-00c04fd430c8"⟩

/-- The store after one `Create` on a new store. -/
def oneFilm : FilmStorage := (NewFilmStorage.Create matrixRequest idA).1

/-- The store after two `Create` calls with different identifiers. -/
def twoFilms : FilmStorage := (oneFilm.Create alienRequest idB).1

/-! ## The listing loop -/

/-- The loop returns what it has collected so far, followed by the records of
a window of the entries it still has to visit: the entries left after the
skips that remain, cut to the number of records still allowed. -/
theorem listLoop_eq (limit offset : Int) (order : Order) :
    ∀ (films : FilmSlice) (count skipped : Int),
      FilmStorage.ListLoop limit offset order films count skipped =
        films ++ ((order.drop (offset - skipped).toNat).take (limit - count).toNat).map
          Sigma.snd := by
  induction order with
  | nil => intro films count skipped; simp [FilmStorage.ListLoop]
  | cons entry rest ih =>
    intro films count skipped
    obtain ⟨key, film⟩ := entry
    unfold FilmStorage.ListLoop
    by_cases hs : skipped < offset
    · have hd : (offset - skipped).toNat = (offset - (skipped + 1)).toNat + 1 := by omega
      rw [if_pos hs, ih, hd, List.drop_succ_cons]
    · have hd : (offset - skipped).toNat = 0 := by omega
      rw [if_neg hs, hd, List.drop_zero]
      by_cases hc : count ≥ limit
      · have ht : (limit - count).toNat = 0 := by omega
        rw [if_pos hc, ht]; simp
      · have ht : (limit - count).toNat = (limit - (count + 1)).toNat + 1 := by omega
        rw [if_neg hc, ih, hd, List.drop_zero, ht, List.take_succ_cons]
        simp

/-- The result of `List` is the window of the visiting order that starts after
`offset` entries and holds at most `limit` entries. -/
theorem list_eq_window (s : FilmStorage) (order : Order) (limit offset : Int) :
    s.List order limit offset =
      ((order.drop offset.toNat).take limit.toNat).map Sigma.snd := by
  simp [FilmStorage.List, listLoop_eq]

/-- A visiting order of a store has as many entries as the store. -/
theorem enumerates_length {s : FilmStorage} {order : Order} (h : s.Enumerates order) :
    order.length = s.size :=
  List.Perm.length_eq h

/-- A visiting order of a store names no key twice. -/
theorem enumerates_nodup_keys {s : FilmStorage} {order : Order} (h : s.Enumerates order) :
    (order.map Sigma.fst).Nodup := by
  have h1 : order.NodupKeys := (List.perm_nodupKeys h).mpr s.Films.nodupKeys
  exact h1

/-- An entry of a visiting order of a store is stored under its key. -/
theorem enumerates_lookup {s : FilmStorage} {order : Order} (h : s.Enumerates order)
    {key : String} {film : Film} (hm : (⟨key, film⟩ : Entry) ∈ order) :
    s.Films.lookup key = some film := by
  have h1 : (⟨key, film⟩ : Entry) ∈ s.Films.entries := (List.Perm.mem_iff h).mp hm
  exact AList.mem_lookup_iff.mpr h1

/-! ## Map reads after `Create`, `Update` and `Delete` -/

/-- Running all assignments of an update leaves the identifier and replaces
every other field by the value of the request. -/
theorem afterAssignments_all (film : Film) (update : UpdateFilmRequest) :
    FilmStorage.afterAssignments film update (FilmStorage.UpdateAssignments update).length =
      { ID := film.ID
        Title := update.Title
        Year := update.Year
        Country := update.Country
        Director := update.Director
        AgeRating := update.AgeRating
        Duration := update.Duration
        Rating := update.Rating
        Actors := update.Actors } := by
  simp [FilmStorage.afterAssignments, FilmStorage.UpdateAssignments]

/-- A key is in the map exactly when reading it yields a record. -/
theorem lookup_isSome_iff (s : FilmStorage) (id : String) :
    (s.Films.lookup id).isSome = true ↔ id ∈ s.Films :=
  AList.lookup_isSome

/-- C1. Create/GetByID round trip: the record returned by `Create` carries the
title, year, country, director, duration and age rating of the request, rating
zero and no actors, and `GetByID` with its identifier on the resulting store
reports presence and yields that same record. -/
theorem create_getByID_roundtrip (s : FilmStorage) (f : CreateFilmRequest) (id : UUID) :
    (s.Create f id).2.Title = f.Title ∧
    (s.Create f id).2.Year = f.Year ∧
    (s.Create f id).2.Country = f.Country ∧
    (s.Create f id).2.Director = f.Director ∧
    (s.Create f id).2.Duration = f.Duration ∧
    (s.Create f id).2.AgeRating = f.AgeRating ∧
    (s.Create f id).2.Rating = Float32.zero ∧
    (s.Create f id).2.Actors = [] ∧
    (s.Create f id).1.GetByID (s.Create f id).2.ID.String = (some (s.Create f id).2, true) := by
  simp [FilmStorage.Create, FilmStorage.GetByID, AList.lookup_insert]

/-- C2. Update of an existing record is a full replacement: when `id` keys the
record `old`, `Update` reports success and returns the record made of the
identifier of `old` and of all eight fields of the request, and `GetByID`
afterwards yields exactly that record. -/
theorem update_full_replacement (s : FilmStorage) (id : String) (old : Film)
    (u : UpdateFilmRequest) (h : s.GetByID id = (some old, true)) :
    (s.Update id u).2 =
      (some { ID := old.ID, Title := u.Title, Year := u.Year, Country := u.Country,
              Director := u.Director, AgeRating := u.AgeRating, Duration := u.Duration,
              Rating := u.Rating, Actors := u.Actors }, true) ∧
    (s.Update id u).1.GetByID id = (s.Update id u).2 := by
  have hl : s.Films.lookup id = some old := by
    simpa [FilmStorage.GetByID] using congrArg Prod.fst h
  simp [FilmStorage.Update, hl, afterAssignments_all, FilmStorage.GetByID, AList.lookup_insert]

/-- Witness of C2 on the store holding one film. -/
theorem update_full_replacement_witness :
    oneFilm.GetByID idA.String = (some (NewFilmStorage.Create matrixRequest idA).2, true) ∧
    (oneFilm.Update idA.String matrixUpdate).2 =
      (some { ID := idA, Title := "The Matrix", Year := 2000, Country := "US",
              Director := "Wachowskis", AgeRating := "18+", Duration := 140,
              Rating := ⟨1091043328⟩, Actors := ["Reeves"] }, true) ∧
    (oneFilm.Update idA.String matrixUpdate).1.GetByID idA.String =
      (oneFilm.Update idA.String matrixUpdate).2 :=
  ⟨by decide, update_full_replacement oneFilm idA.String (NewFilmStorage.Create matrixRequest idA).2
    matrixUpdate (by decide)⟩

/-- C3. Not-found contract: for a key that is not in the map, `GetByID` yields
`nil, false`, `Update` yields `nil, false` for every request and `Delete`
yields `false`; `Update` and `Delete` hand back the store they were given
(`GetByID` only reads). -/
theorem not_found_contract (s : FilmStorage) (id : String) (h : id ∉ s.Films) :
    s.GetByID id = (none, false) ∧
    (∀ u : UpdateFilmRequest, s.Update id u = (s, (none, false))) ∧
    s.Delete id = (s, false) := by
  have hl : s.Films.lookup id = none := AList.lookup_eq_none.mpr h
  refine ⟨?_, ?_, ?_⟩
  · simp [FilmStorage.GetByID, hl]
  · intro u; simp [FilmStorage.Update, hl]
  · simp [FilmStorage.Delete, hl]

/-- Witness of C3: the second identifier on the store holding one film. -/
theorem not_found_contract_witness :
    idB.String ∉ oneFilm.Films ∧
    oneFilm.GetByID idB.String = (none, false) ∧
    (∀ u : UpdateFilmRequest, oneFilm.Update idB.String u = (oneFilm, (none, false))) ∧
    oneFilm.Delete idB.String = (oneFilm, false) :=
  ⟨by decide, not_found_contract oneFilm idB.String (by decide)⟩

/-- C4. Delete idempotence: for a key that is in the map the first `Delete`
returns `true`, a second `Delete` on the resulting store returns `false`, and
`GetByID` reports absence after the first and after the second call. -/
theorem delete_idempotent (s : FilmStorage) (id : String) (h : id ∈ s.Films) :
    (s.Delete id).2 = true ∧
    ((s.Delete id).1.Delete id).2 = false ∧
    (s.Delete id).1.GetByID id = (none, false) ∧
    ((s.Delete id).1.Delete id).1.GetByID id = (none, false) := by
  have hl : (s.Films.lookup id).isSome = true := (lookup_isSome_iff s id).mpr h
  simp [FilmStorage.Delete, hl, FilmStorage.GetByID, AList.lookup_erase]

/-- Witness of C4 on the store holding two films. -/
theorem delete_idempotent_witness :
    idA.String ∈ twoFilms.Films ∧
    (twoFilms.Delete idA.String).2 = true ∧
    ((twoFilms.Delete idA.String).1.Delete idA.String).2 = false ∧
    (twoFilms.Delete idA.String).1.GetByID idA.String = (none, false) ∧
    ((twoFilms.Delete idA.String).1.Delete idA.String).1.GetByID idA.String = (none, false) :=
  ⟨by decide, delete_idempotent twoFilms idA.String (by decide)⟩

/-! ## Listing -/

/-- C5. List bounds: with a positive limit `n` and any offset `k`, `List`
returns at most `n` records whatever the visiting order, and it returns no
record when the offset is at least the number of stored records. -/
theorem list_bounds (s : FilmStorage) (order : Order) (n k : Int)
    (he : s.Enumerates order) (hn : 0 < n) :
    ((s.List order n k).length : Int) ≤ n ∧
    ((s.size : Int) ≤ k → s.List order n k = []) := by
  rw [list_eq_window]
  constructor
  · have h1 : ((order.drop k.toNat).take n.toNat).length ≤ n.toNat :=
      List.length_take_le _ _
    rw [List.length_map]
    omega
  · intro hk
    have h2 : order.length ≤ k.toNat := by
      rw [enumerates_length he]; omega
    rw [List.drop_eq_nil_of_le h2]
    simp

/-- Witness of C5: limit one, offset two on the store holding two films. -/
theorem list_bounds_witness :
    twoFilms.Enumerates twoFilms.Films.entries ∧ (0 : Int) < 1 ∧
    ((twoFilms.List twoFilms.Films.entries 1 2).length : Int) ≤ 1 ∧
    ((twoFilms.size : Int) ≤ 2 → twoFilms.List twoFilms.Films.entries 1 2 = []) :=
  ⟨List.Perm.refl _, by decide,
    list_bounds twoFilms twoFilms.Films.entries 1 2 (List.Perm.refl _) (by decide)⟩

/-- C10. List returns a contiguous window of the visiting order: the result is
the first `max limit 0` records of the order after dropping its first
`max offset 0` entries (`Int.toNat x` is `max x 0`); its length is
`min (max limit 0) (max (N - max offset 0) 0)` for a store of `N` records;
every returned record is stored under some key; and the entries of the window
have pairwise different keys, so no stored record is returned twice. -/
theorem list_contiguous_window (s : FilmStorage) (order : Order) (limit offset : Int)
    (he : s.Enumerates order) :
    s.List order limit offset =
      ((order.drop (max offset 0).toNat).take (max limit 0).toNat).map Sigma.snd ∧
    ((s.List order limit offset).length : Int) =
      min (max limit 0) (max ((s.size : Int) - max offset 0) 0) ∧
    (∀ film ∈ s.List order limit offset, ∃ key, s.Films.lookup key = some film) ∧
    (((order.drop (max offset 0).toNat).take (max limit 0).toNat).map Sigma.fst).Nodup := by
  have ho : (max offset 0).toNat = offset.toNat := by omega
  have hl : (max limit 0).toNat = limit.toNat := by omega
  rw [ho, hl, list_eq_window]
  refine ⟨rfl, ?_, ?_, ?_⟩
  · rw [List.length_map, List.length_take, List.length_drop, enumerates_length he]
    omega
  · intro film hf
    obtain ⟨entry, hm, rfl⟩ := List.mem_map.mp hf
    have hm2 : entry ∈ order := List.mem_of_mem_drop (List.mem_of_mem_take hm)
    exact ⟨entry.1, enumerates_lookup he hm2⟩
  · have hsub : List.Sublist ((order.drop offset.toNat).take limit.toNat) order :=
      (List.take_sublist _ _).trans (List.drop_sublist _ _)
    exact (enumerates_nodup_keys he).sublist (hsub.map _)

/-- Witness of C10: limit one, offset one on the store holding two films. -/
theorem list_contiguous_window_witness :
    twoFilms.Enumerates twoFilms.Films.entries ∧
    twoFilms.List twoFilms.Films.entries 1 1 = [(NewFilmStorage.Create matrixRequest idA).2] :=
  ⟨List.Perm.refl _,
    (list_contiguous_window twoFilms twoFilms.Films.entries 1 1 (List.Perm.refl _)).1.trans
      (by decide)⟩

/-! ## Identifiers produced by `Create` -/

/-- The records returned by a sequence of `Create` calls carry the identifiers
the generator produced, one per call and in call order: `Create` neither
changes nor checks an identifier. -/
theorem createAll_ids (calls : CreateCalls) :
    ∀ s : FilmStorage, (s.CreateAll calls).2.map Film.ID = calls.map Prod.snd := by
  induction calls with
  | nil => intro s; rfl
  | cons call rest ih =>
    intro s
    obtain ⟨f, id⟩ := call
    show (s.Create f id).2.ID :: ((s.Create f id).1.CreateAll rest).2.map Film.ID =
      id :: rest.map Prod.snd
    rw [ih]
    rfl

/-- C8, as the code has it. `Create` always stores the new record under the
generated key and returns it, and every other key reads as before; hence when
the generated key is new, every record stored before is still stored with the
same fields. `Create` has no failure result. -/
theorem create_keeps_other_keys (s : FilmStorage) (f : CreateFilmRequest) (id : UUID) :
    (s.Create f id).1.GetByID id.String = (some (s.Create f id).2, true) ∧
    (∀ key : String, key ≠ id.String → (s.Create f id).1.GetByID key = s.GetByID key) ∧
    (id.String ∉ s.Films → ∀ (key : String) (old : Film),
      s.GetByID key = (some old, true) → (s.Create f id).1.GetByID key = (some old, true)) := by
  have hother : ∀ key : String, key ≠ id.String →
      (s.Create f id).1.GetByID key = s.GetByID key := by
    intro key hk
    simp [FilmStorage.Create, FilmStorage.GetByID, AList.lookup_insert_ne hk]
  refine ⟨?_, hother, ?_⟩
  · simp [FilmStorage.Create, FilmStorage.GetByID, AList.lookup_insert]
  · intro hnew key old hold
    have hk : key ≠ id.String := by
      rintro rfl
      have hl : s.Films.lookup id.String = none := AList.lookup_eq_none.mpr hnew
      simp [FilmStorage.GetByID, hl] at hold
    rw [hother key hk, hold]

/-- Witness of the amended C8: creating a second film under a new identifier
leaves the first film readable as before. -/
theorem create_keeps_other_keys_witness :
    idA.String ≠ idB.String ∧ idB.String ∉ oneFilm.Films ∧
    (oneFilm.Create alienRequest idB).1.GetByID idA.String = oneFilm.GetByID idA.String ∧
    (oneFilm.Create alienRequest idB).1.GetByID idA.String =
      (some (NewFilmStorage.Create matrixRequest idA).2, true) :=
  ⟨by decide, by decide,
    (create_keeps_other_keys oneFilm alienRequest idB).2.1 idA.String (by decide),
    (create_keeps_other_keys oneFilm alienRequest idB).2.2 (by decide) idA.String
      (NewFilmStorage.Create matrixRequest idA).2 (by decide)⟩

/-- C8 fails as stated: when the generated identifier already keys a record,
`Create` returns normally and the record stored before is gone, the new one
standing in its place. -/
theorem create_replaces_on_collision :
    oneFilm.GetByID idA.String = (some (NewFilmStorage.Create matrixRequest idA).2, true) ∧
    (oneFilm.Create alienRequest idA).1.GetByID idA.String =
      (some { ID := idA, Title := "Alien", Year := 1979, Country := "UK",
              Director := "Scott", AgeRating := "18+", Duration := 117,
              Rating := Float32.zero, Actors := [] }, true) ∧
    (oneFilm.Create alienRequest idA).1.GetByID idA.String ≠ oneFilm.GetByID idA.String ∧
    (oneFilm.Create alienRequest idA).1.size = 1 := by
  decide

/-! ## Reading a record while it is updated -/

/-- C9 on the code. A caller of `GetByID` holds the stored record itself. When
it reads the record after `Update` has carried out its first assignment only,
it sees the new title together with the old year, country, director, rating,
duration, age rating and actors: a record that is neither the one before the
update nor the one after it. -/
theorem update_torn_read_through_reference :
    oneFilm.GetByID idA.String = (some (NewFilmStorage.Create matrixRequest idA).2, true) ∧
    oneFilm.readThroughReference idA.String matrixUpdate 0 =
      some (NewFilmStorage.Create matrixRequest idA).2 ∧
    oneFilm.readThroughReference idA.String matrixUpdate 8 =
      (oneFilm.Update idA.String matrixUpdate).2.1 ∧
    oneFilm.readThroughReference idA.String matrixUpdate 1 =
      some { ID := idA, Title := "The Matrix", Year := 1999, Country := "USA",
             Director := "Wachowski", AgeRating := "16+", Duration := 136,
             Rating := Float32.zero, Actors := [] } ∧
    oneFilm.readThroughReference idA.String matrixUpdate 1 ≠
      some (NewFilmStorage.Create matrixRequest idA).2 ∧
    oneFilm.readThroughReference idA.String matrixUpdate 1 ≠
      (oneFilm.Update idA.String matrixUpdate).2.1 := by
  decide

end FilmList
